import Mathlib

/-!
Verification of the interm terminal-block library (src/src/block.rs,
src/src/interactive/lines.rs) against its natural-language specification.

The Rust code is shallowly embedded: interior-mutability cells become
explicit state passing (every operation returns the updated Block),
terminal output becomes an explicit trace of the strings handed to the
write call, and fallible writes are driven by an oracle from call index
to success.  Machine integers (u8 row values) are modelled as Nat with
an explicit modulus at the as-u8 cast points of the source.
-/

namespace Interm

/-- Error values returned by Block operations.  Rust returns io Errors;
we distinguish the write or flush failure from constructed
ErrorKind-Other errors carrying a message. -/
inductive Err where
  | ioFailure : Err
  | other : String → Err
deriving DecidableEq, Repr

/-- Mirrors struct InteractiveLine of src/src/interactive/lines.rs:
mutable content plus a row cell (u8, modelled as Nat). -/
structure InteractiveLine where
  content : String
  relative_row : Nat
deriving DecidableEq, Repr

/-- Mirrors InteractiveLine new: content from the argument, relative_row
from Default, which is 0. -/
def InteractiveLine.new (content : String) : InteractiveLine :=
  { content := content, relative_row := 0 }

/-- Mirrors struct Position of src/src/block.rs: the tracked cursor cell
pair.  Both fields are u8 cells in the source. -/
structure Position where
  row : Nat
  col : Nat
deriving DecidableEq, Repr

/-- Mirrors struct Block of src/src/block.rs. -/
structure Block where
  interactive_lines : List InteractiveLine
  cursor_position : Position
deriving DecidableEq, Repr

/-- The observable output stream: the wrapped byte chunks produced by the
successive write calls, together with the count of write calls made so
far (used to index the success oracle). -/
structure Out where
  chunks : List String
  nCalls : Nat
deriving DecidableEq, Repr

/-- Oracle under which every write and flush succeeds. -/
def allOk : Nat → Bool := fun _ => true

/-- Mirrors the framing of write_inline in src/src/block.rs, which writes
the argument wrapped in a leading and a trailing carriage return. -/
def crWrap (s : String) : String := "\r" ++ s ++ "\r"

/-- Mirrors fn write_inline of src/src/block.rs: lock stdout, write the
carriage-return-framed bytes, flush.  The oracle decides whether this
write call succeeds; a failed call emits nothing and surfaces the io
failure. -/
def write_inline (ok : Nat → Bool) (o : Out) (s : String) : Out × Option Err :=
  if ok o.nCalls then
    ({ chunks := o.chunks ++ [crWrap s], nCalls := o.nCalls + 1 }, none)
  else
    (o, some Err.ioFailure)

/-- Mirrors fn move_up of src/src/block.rs: emit the CSI n F sequence. -/
def move_up (ok : Nat → Bool) (o : Out) (n : Nat) : Out × Option Err :=
  write_inline ok o ("\x1b[" ++ toString n ++ "F")

/-- Mirrors fn move_down of src/src/block.rs: emit the CSI n E sequence. -/
def move_down (ok : Nat → Bool) (o : Out) (n : Nat) : Out × Option Err :=
  write_inline ok o ("\x1b[" ++ toString n ++ "E")

/-- Mirrors fn go_to of src/src/block.rs: compare the tracked row with the
target row and emit the absolute-difference up or down move; emit nothing
when equal.  The tracked row itself is not modified here. -/
def go_to (ok : Nat → Bool) (b : Block) (o : Out) (el : InteractiveLine) :
    Out × Option Err :=
  let relative_row := el.relative_row
  if relative_row < b.cursor_position.row then
    move_up ok o (b.cursor_position.row - relative_row)
  else if b.cursor_position.row < relative_row then
    move_down ok o (relative_row - b.cursor_position.row)
  else
    (o, none)

/-- Mirrors fn goto_idx of src/src/block.rs: look the element up by index,
go to it, then commit the tracked row to that element's relative_row; a
missing index yields the index-not-found error with nothing emitted. -/
def goto_idx (ok : Nat → Bool) (b : Block) (o : Out) (idx : Nat) :
    Block × Out × Option Err :=
  match b.interactive_lines[idx]? with
  | some el =>
    match go_to ok b o el with
    | (o', none) =>
      ({ b with cursor_position := { b.cursor_position with row := el.relative_row } },
       o', none)
    | (o', some e) => (b, o', some e)
  | none => (b, o, some (Err.other ("index " ++ toString idx ++ " not found")))

/-- Mirrors fn goto_element of src/src/block.rs: read the argument's
relative_row, look up this block's element at that row, go to it, commit
the tracked row, then emit a bare carriage return write. -/
def goto_element (ok : Nat → Bool) (b : Block) (o : Out) (el : InteractiveLine) :
    Block × Out × Option Err :=
  let relative_row := el.relative_row
  match b.interactive_lines[relative_row]? with
  | some el2 =>
    match go_to ok b o el2 with
    | (o', none) =>
      let b' : Block :=
        { b with cursor_position := { b.cursor_position with row := relative_row } }
      match write_inline ok o' "\r" with
      | (o'', none) => (b', o'', none)
      | (o'', some e) => (b', o'', some e)
    | (o', some e) => (b, o', some e)
  | none =>
    (b, o, some (Err.other ("index " ++ toString relative_row ++ " not found")))

/-- Mirrors fn clear_line of src/src/block.rs: emit the erase-line plus
carriage-return sequence. -/
def clear_line (ok : Nat → Bool) (o : Out) : Out × Option Err :=
  write_inline ok o "\x1b[2K\r"

/-- Mirrors fn hide_cursor of src/src/block.rs. -/
def hide_cursor (ok : Nat → Bool) (o : Out) : Out × Option Err :=
  write_inline ok o "\x1b[?25l"

/-- Mirrors fn show_cursor of src/src/block.rs. -/
def show_cursor (ok : Nat → Bool) (o : Out) : Out × Option Err :=
  write_inline ok o "\x1b[?25h"

/-- Rust Debug escaping for the characters that have short escapes; used
by the derived Debug formatting of a String. -/
def rustEscapeChar (c : Char) : String :=
  if c = '"' then "\\\""
  else if c = '\\' then "\\\\"
  else if c = '\n' then "\\n"
  else if c = '\r' then "\\r"
  else if c = '\t' then "\\t"
  else String.mk [c]

/-- Rust Debug formatting of a String: quoted, with short escapes (the
unicode escapes Rust applies to other control characters are elided). -/
def rustDebugString (s : String) : String :=
  "\"" ++ String.join (s.toList.map rustEscapeChar) ++ "\""

/-- Rust derived Debug formatting of an InteractiveLine, as interpolated
into the element-not-found message of update_element. -/
def debugFmt (l : InteractiveLine) : String :=
  "InteractiveLine \x7b content: " ++ rustDebugString l.content ++
    ", relative_row: Cell \x7b value: " ++ toString l.relative_row ++ " \x7d \x7d"

/-- Mirrors fn update_element of src/src/block.rs: first replace the stored
content of this block's element at the argument's relative_row (error if
out of bounds), then goto_element, then optionally clear_line, then write
the new content.  Each failing step returns early, keeping the state
mutations already made. -/
def update_element (ok : Nat → Bool) (b : Block) (o : Out)
    (elem : InteractiveLine) (content : String) (clear : Bool) :
    Block × Out × Option Err :=
  let relative_row := elem.relative_row
  match b.interactive_lines[relative_row]? with
  | none => (b, o, some (Err.other ("element " ++ debugFmt elem ++ " not found")))
  | some e =>
    let b1 : Block :=
      { b with interactive_lines :=
          b.interactive_lines.set relative_row { e with content := content } }
    match goto_element ok b1 o elem with
    | (b2, o2, some err) => (b2, o2, some err)
    | (b2, o2, none) =>
      match (if clear then clear_line ok o2 else (o2, none)) with
      | (o3, some err) => (b2, o3, some err)
      | (o3, none) =>
        match write_inline ok o3 content with
        | (o4, some err) => (b2, o4, some err)
        | (o4, none) => (b2, o4, none)

/-- The erase-and-move-up loop body of fn clear_lines of src/src/block.rs,
run the given number of times: clear the current line, then move up one
row.  Neither step touches the tracked cursor row. -/
def clear_loop (ok : Nat → Bool) (b : Block) (o : Out) :
    Nat → Block × Out × Option Err
  | 0 => (b, o, none)
  | Nat.succ k =>
    match clear_line ok o with
    | (o1, some e) => (b, o1, some e)
    | (o1, none) =>
      match move_up ok o1 1 with
      | (o2, some e) => (b, o2, some e)
      | (o2, none) => clear_loop ok b o2 k

/-- Mirrors fn clear_lines of src/src/block.rs: go to the last line, then
run the erase-and-move-up loop last-line times.  The source subtracts 1
from the length with usize arithmetic; constructed blocks are nonempty so
the subtraction never underflows, and Nat subtraction agrees there. -/
def clear_lines (ok : Nat → Bool) (b : Block) (o : Out) :
    Block × Out × Option Err :=
  let last_line := b.interactive_lines.length - 1
  match goto_idx ok b o last_line with
  | (b1, o1, some e) => (b1, o1, some e)
  | (b1, o1, none) => clear_loop ok b1 o1 last_line

/-- Mirrors fn prepare_all of src/src/block.rs: one write of as many
newline bytes as there are lines. -/
def prepare_all (ok : Nat → Bool) (b : Block) (o : Out) : Out × Option Err :=
  write_inline ok o (String.mk (List.replicate b.interactive_lines.length '\n'))

/-- Outcome of running Block new: the source asserts (panics) on invalid
sizes, surfaces an io failure from prepare_all, or returns the block. -/
inductive NewOutcome where
  | panicked : String → NewOutcome
  | failed : Err → NewOutcome
  | ok : Block → Out → NewOutcome
deriving DecidableEq, Repr

/-- Mirrors fn new of src/src/block.rs: assert the length bounds (panicking
with the assert messages when violated), build the cursor position at row
len-as-u8, renumber each line's relative_row to its index as u8, then run
prepare_all on a fresh output stream. -/
def Block.new (ok : Nat → Bool) (interactive_lines : List InteractiveLine) :
    NewOutcome :=
  if ¬ interactive_lines.length ≤ 255 then
    NewOutcome.panicked "interactive_lines vector is larger than 255 elements"
  else if interactive_lines.isEmpty then
    NewOutcome.panicked "interactive_lines vector is empty"
  else
    let cursor_position : Position :=
      { row := interactive_lines.length % 256, col := 0 }
    let lines_vec : List InteractiveLine :=
      interactive_lines.enum.map (fun p => { p.2 with relative_row := p.1 % 256 })
    let cur : Block :=
      { cursor_position := cursor_position, interactive_lines := lines_vec }
    match prepare_all ok cur { chunks := [], nCalls := 0 } with
    | (o, none) => NewOutcome.ok cur o
    | (_, some e) => NewOutcome.failed e

/-- Observable facts about one run of the Drop implementation of Block
(src/src/block.rs): how many times show_cursor was invoked, whether the
unwrap on its result panicked, and whether the rest of teardown (release
of the struct's fields by the drop glue) still completed. -/
structure DropInfo where
  showCursorCalls : Nat
  panicked : Bool
  fieldsReleased : Bool
deriving DecidableEq, Repr

/-- Mirrors impl Drop for Block of src/src/block.rs together with the
language semantics of drop glue: Drop calls show_cursor exactly once and
unwraps its result, so an io failure panics; a panic raised inside Drop
unwinds, and the drop glue still releases the struct's fields during that
unwind, so teardown of the fields completes in both branches. -/
def blockDrop (ok : Nat → Bool) (_b : Block) (o : Out) : Out × DropInfo :=
  match show_cursor ok o with
  | (o', none) =>
    (o', { showCursorCalls := 1, panicked := false, fieldsReleased := true })
  | (o', some _) =>
    (o', { showCursorCalls := 1, panicked := true, fieldsReleased := true })

/-- All bytes emitted so far, in order. -/
def emittedBytes (o : Out) : String := String.join o.chunks

/-- Count of newline bytes in a string. -/
def nlCount (s : String) : Nat := s.toList.count '\n'

/-- The chunk list a successful go_to from tracked row r to target row t
appends: one up move, one down move, or nothing.  Used to state the
emission contracts of the goto operations. -/
def deltaChunks (r t : Nat) : List String :=
  if t < r then [crWrap ("\x1b[" ++ toString (r - t) ++ "F")]
  else if r < t then [crWrap ("\x1b[" ++ toString (t - r) ++ "E")]
  else []

/-- Well-formedness of a block's line numbering: element i stores
relative_row i.  Block new establishes this and every operation
preserves it. -/
def WF (b : Block) : Prop :=
  ∀ i < b.interactive_lines.length,
    (b.interactive_lines[i]?).map (fun l => l.relative_row) = some i

/-- Parser state of the modelled terminal: outside any escape sequence,
after the escape byte, or inside a CSI sequence accumulating parameter
characters. -/
inductive EscState where
  | norm : EscState
  | esc : EscState
  | csi : List Char → EscState
deriving DecidableEq, Repr

/-- Modelled terminal screen state: physical cursor row and column in the
block's 0-based coordinate space, the log of rows on which an erase-line
was performed, and cursor visibility. -/
structure Term where
  row : Int
  col : Int
  erased : List Int
  visible : Bool
deriving DecidableEq, Repr

/-- Numeric value of an accumulated CSI parameter digit list. -/
def digitsToNat (ps : List Char) : Nat :=
  ps.foldl (fun a c => a * 10 + (c.toNat - 48)) 0

/-- Modelled from the spec: section 6 External Interfaces gives the meaning
an ANSI terminal (an external collaborator, not code under src) assigns to
the emitted byte stream.  Carriage return homes the column, newline moves
one row down, CSI n F moves up n rows to column 0, CSI n E moves down n
rows to column 0, CSI 2 K erases the current row, CSI ? 25 h and l set
cursor visibility; any other byte advances the column. -/
def termStep (s : Term × EscState) (c : Char) : Term × EscState :=
  match s with
  | (t, EscState.norm) =>
    if c = Char.ofNat 27 then (t, EscState.esc)
    else if c = '\r' then ({ t with col := 0 }, EscState.norm)
    else if c = '\n' then ({ t with row := t.row + 1, col := 0 }, EscState.norm)
    else ({ t with col := t.col + 1 }, EscState.norm)
  | (t, EscState.esc) =>
    if c = '[' then (t, EscState.csi []) else (t, EscState.norm)
  | (t, EscState.csi ps) =>
    if c.isDigit ∨ c = '?' then (t, EscState.csi (ps ++ [c]))
    else
      let t' :=
        if c = 'F' then { t with row := t.row - (digitsToNat ps : Int), col := 0 }
        else if c = 'E' then { t with row := t.row + (digitsToNat ps : Int), col := 0 }
        else if c = 'K' ∧ ps = ['2'] then { t with erased := t.erased ++ [t.row] }
        else if c = 'h' ∧ ps = ['?', '2', '5'] then { t with visible := true }
        else if c = 'l' ∧ ps = ['?', '2', '5'] then { t with visible := false }
        else t
      (t', EscState.norm)

/-- Run the modelled terminal over a byte string from a given starting
physical row, with column 0, nothing erased, cursor visible. -/
def runTerm (startRow : Int) (s : String) : Term :=
  (s.toList.foldl termStep
    ({ row := startRow, col := 0, erased := [], visible := true }, EscState.norm)).1

/-- A three-line block with rows numbered in construction order and the
tracked cursor at the below-block sentinel row 3, exactly the state a
successful construction from three contents produces. -/
def blk3 : Block :=
  { interactive_lines :=
      [{ content := "A", relative_row := 0 },
       { content := "B", relative_row := 1 },
       { content := "C", relative_row := 2 }],
    cursor_position := { row := 3, col := 0 } }

/-- The same three-line block with the tracked cursor on row 0. -/
def blk3at0 : Block :=
  { blk3 with cursor_position := { row := 0, col := 0 } }

section Lemmas

/-- A write under the all-successes oracle appends one wrapped chunk. -/
lemma write_inline_allOk (o : Out) (s : String) :
    write_inline allOk o s =
      ({ chunks := o.chunks ++ [crWrap s], nCalls := o.nCalls + 1 }, none) := by
  simp [write_inline, allOk]

/-- Looking up an out-of-bounds index makes goto_idx fail with the
index-not-found error, leaving block and output untouched. -/
lemma goto_idx_err (ok : Nat → Bool) (b : Block) (o : Out) (idx : Nat)
    (h : b.interactive_lines.length ≤ idx) :
    goto_idx ok b o idx =
      (b, o, some (Err.other ("index " ++ toString idx ++ " not found"))) := by
  simp [goto_idx, List.getElem?_eq_none_iff.mpr h]

/-- On a well-formed block, goto_idx at an in-bounds index succeeds under
the all-successes oracle: it appends exactly the delta chunks for the move
from the tracked row to idx and commits the tracked row to idx. -/
lemma goto_idx_ok (b : Block) (hWF : WF b) (o : Out) (idx : Nat)
    (h : idx < b.interactive_lines.length) :
    goto_idx allOk b o idx =
      ({ b with cursor_position := { b.cursor_position with row := idx } },
       { chunks := o.chunks ++ deltaChunks b.cursor_position.row idx,
         nCalls := o.nCalls + (deltaChunks b.cursor_position.row idx).length },
       none) := by
  have hel : b.interactive_lines[idx]? = some (b.interactive_lines[idx]) :=
    List.getElem?_eq_getElem h
  have hrr : (b.interactive_lines[idx]).relative_row = idx := by
    have h2 := hWF idx h
    rw [hel] at h2
    simpa using h2
  simp only [goto_idx, hel, go_to, hrr]
  rcases Nat.lt_trichotomy idx b.cursor_position.row with hlt | heq | hgt
  · rw [if_pos hlt]
    simp [move_up, write_inline_allOk, deltaChunks, hlt]
  · rw [if_neg (by omega), if_neg (by omega)]
    simp [deltaChunks, heq]
  · rw [if_neg (by omega), if_pos hgt]
    simp [move_down, write_inline_allOk, deltaChunks, hgt, Nat.not_lt_of_lt hgt]

/-- A referenced row at or past the length makes goto_element fail with
the index-not-found error, leaving block and output untouched. -/
lemma goto_element_err (ok : Nat → Bool) (b : Block) (o : Out)
    (el : InteractiveLine) (h : b.interactive_lines.length ≤ el.relative_row) :
    goto_element ok b o el =
      (b, o,
       some (Err.other ("index " ++ toString el.relative_row ++ " not found"))) := by
  simp [goto_element, List.getElem?_eq_none_iff.mpr h]

/-- On a well-formed block, goto_element for any reference whose stored row
is in bounds succeeds under the all-successes oracle: it appends the delta
chunks for the move plus one bare-carriage-return chunk, and commits the
tracked row to the reference's stored row.  Only the stored row of the
reference is consulted. -/
lemma goto_element_ok (b : Block) (hWF : WF b) (o : Out) (el : InteractiveLine)
    (h : el.relative_row < b.interactive_lines.length) :
    goto_element allOk b o el =
      ({ b with cursor_position := { b.cursor_position with row := el.relative_row } },
       { chunks := o.chunks ++ deltaChunks b.cursor_position.row el.relative_row
                     ++ [crWrap "\r"],
         nCalls := o.nCalls
                     + (deltaChunks b.cursor_position.row el.relative_row).length + 1 },
       none) := by
  have hel : b.interactive_lines[el.relative_row]? =
      some (b.interactive_lines[el.relative_row]) :=
    List.getElem?_eq_getElem h
  have hrr : (b.interactive_lines[el.relative_row]).relative_row = el.relative_row := by
    have h2 := hWF el.relative_row h
    rw [hel] at h2
    simpa using h2
  simp only [goto_element, hel, go_to, hrr]
  rcases Nat.lt_trichotomy el.relative_row b.cursor_position.row with hlt | heq | hgt
  · rw [if_pos hlt]
    simp [move_up, write_inline_allOk, deltaChunks, hlt]
  · rw [if_neg (by omega), if_neg (by omega)]
    simp [write_inline_allOk, deltaChunks, heq]
  · rw [if_neg (by omega), if_pos hgt]
    simp [move_down, write_inline_allOk, deltaChunks, hgt, Nat.not_lt_of_lt hgt]

/-- goto_element never changes the line list, whatever the oracle does. -/
lemma goto_element_lines (ok : Nat → Bool) (b : Block) (o : Out)
    (el : InteractiveLine) :
    ((goto_element ok b o el).1).interactive_lines = b.interactive_lines := by
  rcases hg : b.interactive_lines[el.relative_row]? with _ | el2
  · simp [goto_element, hg]
  · rcases hgo : go_to ok b o el2 with ⟨o', e'⟩
    cases e' with
    | none =>
      rcases hw : write_inline ok o' "\r" with ⟨o'', e''⟩
      cases e'' <;> simp [goto_element, hg, hgo, hw]
    | some e =>
      simp [goto_element, hg, hgo]

/-- Whatever the oracle does, update_element on an in-bounds reference
leaves the line list equal to the original with the referenced row's
content replaced: the replacement happens before any emission. -/
lemma update_element_lines (ok : Nat → Bool) (b : Block) (o : Out)
    (elem : InteractiveLine) (content : String) (clear : Bool)
    (h : elem.relative_row < b.interactive_lines.length) :
    ((update_element ok b o elem content clear).1).interactive_lines =
      b.interactive_lines.set elem.relative_row
        { b.interactive_lines[elem.relative_row] with content := content } := by
  have hel : b.interactive_lines[elem.relative_row]? =
      some (b.interactive_lines[elem.relative_row]) :=
    List.getElem?_eq_getElem h
  simp only [update_element, hel]
  rcases hge : goto_element ok
      { b with interactive_lines := (b.interactive_lines.set elem.relative_row
            { b.interactive_lines[elem.relative_row] with content := content }) }
      o elem with ⟨b2, o2, e2⟩
  have hb2 := goto_element_lines ok
      { b with interactive_lines := (b.interactive_lines.set elem.relative_row
            { b.interactive_lines[elem.relative_row] with content := content }) }
      o elem
  rw [hge] at hb2
  simp only [] at hb2
  cases e2 with
  | none =>
    rcases hcl : (if clear then clear_line ok o2 else (o2, none)) with ⟨o3, e3⟩
    cases e3 with
    | none =>
      rcases hw : write_inline ok o3 content with ⟨o4, e4⟩
      cases e4 <;> simp [hge, hcl, hw, hb2]
    | some e => simp [hge, hcl, hb2]
  | some e => simp [hge, hb2]

/-- The output of a single-chunk stream is that chunk. -/
lemma emittedBytes_single (s : String) (n : Nat) :
    emittedBytes { chunks := [s], nCalls := n } = s := rfl

/-- Carriage-return framing adds no newline bytes. -/
lemma nlCount_crWrap (s : String) : nlCount (crWrap s) = nlCount s := by
  show (('\r' :: s.toList) ++ ['\r']).count '\n' = s.toList.count '\n'
  rw [List.count_append, List.count_cons, if_neg (by decide),
    show (['\r'] : List Char).count '\n' = 0 from by decide, Nat.add_zero]

/-- A replicated newline string has exactly that many newline bytes. -/
lemma nlCount_replicate (n : Nat) :
    nlCount (String.mk (List.replicate n '\n')) = n := by
  show (List.replicate n '\n').count '\n' = n
  simp

/-- Drop invokes show_cursor exactly once and field teardown completes,
for every oracle. -/
lemma blockDrop_info (ok : Nat → Bool) (b : Block) (o : Out) :
    (blockDrop ok b o).2.showCursorCalls = 1 ∧
      (blockDrop ok b o).2.fieldsReleased = true := by
  rcases hw : show_cursor ok o with ⟨o', e⟩
  cases e <;> simp [blockDrop, hw]

end Lemmas

section Claims

/-- C1: the cursor-tracking invariant fails in the code: clear_lines emits
three move-up sequences (one from the goto, two from the erase loop) but
commits the tracked row only at the goto, so after the call the tracked
row is 2 while the physical cursor, per the ANSI semantics of the emitted
bytes, sits on row 0.  The move-ups inside the erase loop never commit. -/
theorem clear_lines_moveup_no_commit :
    Block.new allOk
        [InteractiveLine.new "A", InteractiveLine.new "B", InteractiveLine.new "C"] =
      NewOutcome.ok blk3 { chunks := ["\r\n\n\n\r"], nCalls := 1 } ∧
    (clear_lines allOk blk3 { chunks := [], nCalls := 0 }).2.2 = none ∧
    (clear_lines allOk blk3 { chunks := [], nCalls := 0 }).2.1.chunks =
      ["\r\x1b[1F\r", "\r\x1b[2K\r\r", "\r\x1b[1F\r", "\r\x1b[2K\r\r", "\r\x1b[1F\r"] ∧
    (clear_lines allOk blk3 { chunks := [], nCalls := 0 }).1.cursor_position.row = 2 ∧
    (runTerm 3 (emittedBytes
        (clear_lines allOk blk3 { chunks := [], nCalls := 0 }).2.1)).row = 0 := by
  decide

/-- C2 counterexample: constructing with an empty contents sequence does
not return an error value to the caller; the code panics via assert with
the assert message, contradicting the claim that the constructor returns
the validation failure rather than crashing. -/
theorem new_empty_panics :
    Block.new allOk [] = NewOutcome.panicked "interactive_lines vector is empty" := by
  decide

/-- C2 amended: construction validates sizes by assertion and panics on
violation: 0 entries panics with the empty-vector message, 256 or more
entries panics with the oversized-vector message, and exactly 255 entries
succeeds (under an all-successes write oracle); the thresholds match the
claim but the failures are panics, not returned error values. -/
theorem new_validation_panics (l : List InteractiveLine) :
    (l.length = 0 →
      Block.new allOk l = NewOutcome.panicked "interactive_lines vector is empty") ∧
    (256 ≤ l.length →
      Block.new allOk l =
        NewOutcome.panicked "interactive_lines vector is larger than 255 elements") ∧
    (l.length = 255 → ∃ b o, Block.new allOk l = NewOutcome.ok b o) := by
  refine ⟨?_, ?_, ?_⟩
  · intro h
    rw [List.length_eq_zero.mp h]
    decide
  · intro h
    simp only [Block.new]
    rw [if_pos (by omega)]
  · intro h
    have hne : ¬ (l.isEmpty = true) := by
      simp [List.isEmpty_iff]
      intro hc
      rw [hc] at h
      simp at h
    simp only [Block.new]
    rw [if_neg (by omega), if_neg hne]
    simp only [prepare_all, write_inline_allOk]
    exact ⟨_, _, rfl⟩

/-- C2 witness for the amended claim at the three concrete sizes. -/
theorem new_validation_panics_witness :
    Block.new allOk (List.replicate 256 (InteractiveLine.new "x")) =
      NewOutcome.panicked "interactive_lines vector is larger than 255 elements" ∧
    (∃ b o, Block.new allOk (List.replicate 255 (InteractiveLine.new "x")) =
      NewOutcome.ok b o) ∧
    Block.new allOk ([] : List InteractiveLine) =
      NewOutcome.panicked "interactive_lines vector is empty" :=
  ⟨(new_validation_panics _).2.1 (by rw [List.length_replicate]),
   (new_validation_panics _).2.2 (by rw [List.length_replicate]),
   (new_validation_panics _).1 (by rfl)⟩

/-- C3: clear_all on a 3-slot block starting at tracked row 0 does move
down 2 to the last slot and performs exactly 2 erase-then-move-up pairs,
the erased rows are 2 and 1 so row 0 is never erased, and the physical
cursor ends on row 0 — but the tracked row after the call is 2, not 0 as
the claim states, because the loop's move-ups never commit. -/
theorem clear_all_tracked_row_stale :
    (goto_idx allOk blk3 { chunks := [], nCalls := 0 } 0).1 = blk3at0 ∧
    clear_lines allOk blk3at0 { chunks := [], nCalls := 0 } =
      ({ blk3at0 with cursor_position := { row := 2, col := 0 } },
       { chunks :=
           ["\r\x1b[2E\r", "\r\x1b[2K\r\r", "\r\x1b[1F\r", "\r\x1b[2K\r\r", "\r\x1b[1F\r"],
         nCalls := 5 },
       none) ∧
    (runTerm 0 (emittedBytes
        (clear_lines allOk blk3at0 { chunks := [], nCalls := 0 }).2.1)).erased = [2, 1] ∧
    (runTerm 0 (emittedBytes
        (clear_lines allOk blk3at0 { chunks := [], nCalls := 0 }).2.1)).row = 0 := by
  decide

/-- C4: at teardown the Drop implementation invokes show_cursor exactly
once, whatever the oracle says and whatever state an earlier
update_element call (failed or not) left behind, and the release of the
fields by the drop glue completes even when the unwrap of a failed
show_cursor write panics. -/
theorem drop_show_cursor_once (ok : Nat → Bool) (b : Block) (o : Out)
    (elem : InteractiveLine) (content : String) (clear : Bool) :
    ((blockDrop ok (update_element ok b o elem content clear).1
        (update_element ok b o elem content clear).2.1).2.showCursorCalls = 1 ∧
     (blockDrop ok (update_element ok b o elem content clear).1
        (update_element ok b o elem content clear).2.1).2.fieldsReleased = true) ∧
    ((blockDrop ok b o).2.showCursorCalls = 1 ∧
     (blockDrop ok b o).2.fieldsReleased = true) ∧
    ((blockDrop (fun _ => false) b o).2.panicked = true ∧
     (blockDrop (fun _ => false) b o).2.fieldsReleased = true) := by
  refine ⟨blockDrop_info ok _ _, blockDrop_info ok b o, ?_⟩
  simp [blockDrop, show_cursor, write_inline]

/-- C5: from any well-formed block, going to idx1 and then to idx2 makes
the second call emit exactly the delta chunks from idx1 to idx2: one
up-move of magnitude idx1 - idx2 when idx1 is larger, one down-move of
magnitude idx2 - idx1 when idx2 is larger, and nothing at all when they
are equal. -/
theorem goto_goto_delta (b : Block) (hWF : WF b) (o : Out) (idx1 idx2 : Nat)
    (h1 : idx1 < b.interactive_lines.length)
    (h2 : idx2 < b.interactive_lines.length) :
    ∃ b1 o1, goto_idx allOk b o idx1 = (b1, o1, none) ∧
      b1.cursor_position.row = idx1 ∧
      goto_idx allOk b1 o1 idx2 =
        ({ b1 with cursor_position := { b1.cursor_position with row := idx2 } },
         { chunks := o1.chunks ++ deltaChunks idx1 idx2,
           nCalls := o1.nCalls + (deltaChunks idx1 idx2).length },
         none) := by
  refine ⟨_, _, goto_idx_ok b hWF o idx1 h1, rfl, ?_⟩
  exact goto_idx_ok
    { b with cursor_position := { b.cursor_position with row := idx1 } }
    hWF _ idx2 h2

/-- C5 witness at a concrete block, from index 2 to index 0. -/
theorem goto_goto_delta_witness :
    WF blk3 ∧
    ∃ b1 o1, goto_idx allOk blk3 { chunks := [], nCalls := 0 } 2 = (b1, o1, none) ∧
      b1.cursor_position.row = 2 ∧
      goto_idx allOk b1 o1 0 =
        ({ b1 with cursor_position := { b1.cursor_position with row := 0 } },
         { chunks := o1.chunks ++ deltaChunks 2 0,
           nCalls := o1.nCalls + (deltaChunks 2 0).length },
         none) :=
  ⟨by unfold WF; decide,
   goto_goto_delta blk3 (by unfold WF; decide) { chunks := [], nCalls := 0 } 2 0
     (by decide) (by decide)⟩

/-- C6 counterexample: on a two-line block with the tracked row already 0,
goto_idx 0 succeeds while emitting nothing at all — in particular no bare
carriage return is written after the (skipped) move, contradicting the
claim that a carriage return is always emitted. -/
theorem goto_idx_no_carriage_return :
    goto_idx allOk
        { interactive_lines :=
            [{ content := "A", relative_row := 0 },
             { content := "B", relative_row := 1 }],
          cursor_position := { row := 0, col := 0 } }
        { chunks := [], nCalls := 0 } 0 =
      ({ interactive_lines :=
           [{ content := "A", relative_row := 0 },
            { content := "B", relative_row := 1 }],
         cursor_position := { row := 0, col := 0 } },
       { chunks := [], nCalls := 0 }, none) := by
  decide

/-- C6 amended: goto_idx fails with the index-not-found error exactly when
the index is at least the line count, touching nothing; otherwise it
emits the delta move (nothing when the magnitude is 0) and commits the
tracked row to the index — with no separate bare-carriage-return write
(each emitted write is carriage-return framed, but the dedicated bare-CR
step lives in goto_element, not goto_idx). -/
theorem goto_idx_contract (b : Block) (hWF : WF b) (o : Out) (idx : Nat) :
    (b.interactive_lines.length ≤ idx →
      goto_idx allOk b o idx =
        (b, o, some (Err.other ("index " ++ toString idx ++ " not found")))) ∧
    (idx < b.interactive_lines.length →
      goto_idx allOk b o idx =
        ({ b with cursor_position := { b.cursor_position with row := idx } },
         { chunks := o.chunks ++ deltaChunks b.cursor_position.row idx,
           nCalls := o.nCalls + (deltaChunks b.cursor_position.row idx).length },
         none)) :=
  ⟨goto_idx_err allOk b o idx, goto_idx_ok b hWF o idx⟩

/-- C6 witness at a concrete block: the out-of-bounds index 5 fails and
the in-bounds index 1 succeeds with an up-move of 2. -/
theorem goto_idx_contract_witness :
    WF blk3 ∧
    goto_idx allOk blk3 { chunks := [], nCalls := 0 } 5 =
      (blk3, { chunks := [], nCalls := 0 },
       some (Err.other ("index " ++ toString 5 ++ " not found"))) ∧
    goto_idx allOk blk3 { chunks := [], nCalls := 0 } 1 =
      ({ blk3 with cursor_position := { blk3.cursor_position with row := 1 } },
       { chunks := [] ++ deltaChunks blk3.cursor_position.row 1,
         nCalls := 0 + (deltaChunks blk3.cursor_position.row 1).length },
       none) :=
  ⟨by unfold WF; decide,
   (goto_idx_contract blk3 (by unfold WF; decide) { chunks := [], nCalls := 0 } 5).1
     (by decide),
   (goto_idx_contract blk3 (by unfold WF; decide) { chunks := [], nCalls := 0 } 1).2
     (by decide)⟩

/-- C7 counterexample: a foreign reference — a line value that does not
belong to the block — whose stored row is in bounds is acted upon, not
rejected: goto_element succeeds on it. -/
theorem goto_element_foreign_accepted :
    ((goto_element allOk
        { interactive_lines := [{ content := "A", relative_row := 0 }],
          cursor_position := { row := 1, col := 0 } }
        { chunks := [], nCalls := 0 }
        { content := "FOREIGN", relative_row := 0 }).2.2 = none) ∧
    ({ content := "FOREIGN", relative_row := 0 } : InteractiveLine) ∉
      ({ interactive_lines := [{ content := "A", relative_row := 0 }],
         cursor_position := { row := 1, col := 0 } } : Block).interactive_lines := by
  decide

/-- C7 amended: goto_element resolves purely by the reference's stored
row: it fails with the index-not-found error exactly when that row is out
of the block's bounds, succeeds otherwise (moving to this block's line at
that row and committing it), and two references with equal stored rows
are indistinguishable — so a foreign reference with an in-bounds row is
silently acted upon rather than rejected. -/
theorem goto_element_contract (b : Block) (hWF : WF b) (o : Out)
    (el : InteractiveLine) :
    (b.interactive_lines.length ≤ el.relative_row →
      goto_element allOk b o el =
        (b, o,
         some (Err.other ("index " ++ toString el.relative_row ++ " not found")))) ∧
    (el.relative_row < b.interactive_lines.length →
      goto_element allOk b o el =
        ({ b with cursor_position := { b.cursor_position with row := el.relative_row } },
         { chunks := o.chunks ++ deltaChunks b.cursor_position.row el.relative_row
                       ++ [crWrap "\r"],
           nCalls := o.nCalls
                       + (deltaChunks b.cursor_position.row el.relative_row).length + 1 },
         none)) ∧
    (∀ el' : InteractiveLine, el.relative_row = el'.relative_row →
      goto_element allOk b o el = goto_element allOk b o el') :=
  ⟨goto_element_err allOk b o el, goto_element_ok b hWF o el,
   fun el' h => by simp only [goto_element, h]⟩

/-- C7 witness at a concrete block and a foreign reference with stored
row 0, plus an out-of-bounds reference with stored row 7. -/
theorem goto_element_contract_witness :
    WF blk3 ∧
    goto_element allOk blk3 { chunks := [], nCalls := 0 }
        { content := "FOREIGN", relative_row := 7 } =
      (blk3, { chunks := [], nCalls := 0 },
       some (Err.other ("index " ++ toString 7 ++ " not found"))) ∧
    goto_element allOk blk3 { chunks := [], nCalls := 0 }
        { content := "FOREIGN", relative_row := 0 } =
      ({ blk3 with cursor_position := { blk3.cursor_position with row := 0 } },
       { chunks := [] ++ deltaChunks blk3.cursor_position.row 0 ++ [crWrap "\r"],
         nCalls := 0 + (deltaChunks blk3.cursor_position.row 0).length + 1 },
       none) :=
  ⟨by unfold WF; decide,
   (goto_element_contract blk3 (by unfold WF; decide) { chunks := [], nCalls := 0 }
     { content := "FOREIGN", relative_row := 7 }).1 (by decide),
   (goto_element_contract blk3 (by unfold WF; decide) { chunks := [], nCalls := 0 }
     { content := "FOREIGN", relative_row := 0 }).2.1 (by decide)⟩

/-- C8: update_element replaces the stored content before it emits
anything, so when the run ends in the io failure the referenced line's
stored content is nevertheless the new content — stored content and
displayed content diverge; the operation is not transactional. -/
theorem update_element_nontransactional (ok : Nat → Bool) (b : Block) (o : Out)
    (elem : InteractiveLine) (content : String) (clear : Bool)
    (h : elem.relative_row < b.interactive_lines.length)
    (_hfail : (update_element ok b o elem content clear).2.2 = some Err.ioFailure) :
    (((update_element ok b o elem content clear).1).interactive_lines[elem.relative_row]?).map
        (fun l => l.content) = some content := by
  rw [update_element_lines ok b o elem content clear h,
    List.getElem?_set_eq_of_lt _ h]
  rfl

/-- C8 witness: a two-line block, an oracle under which the first two
writes succeed and the content write fails; the run returns the io
failure yet the stored content of line 0 is already the new text. -/
theorem update_element_nontransactional_witness :
    ((update_element (fun k => decide (k < 2))
        { interactive_lines :=
            [{ content := "A", relative_row := 0 },
             { content := "B", relative_row := 1 }],
          cursor_position := { row := 2, col := 0 } }
        { chunks := [], nCalls := 0 }
        { content := "A", relative_row := 0 } "NEW" false).2.2 =
      some Err.ioFailure) ∧
    ((((update_element (fun k => decide (k < 2))
        { interactive_lines :=
            [{ content := "A", relative_row := 0 },
             { content := "B", relative_row := 1 }],
          cursor_position := { row := 2, col := 0 } }
        { chunks := [], nCalls := 0 }
        { content := "A", relative_row := 0 } "NEW" false).1).interactive_lines[(0 : Nat)]?).map
        (fun l => l.content) = some "NEW") :=
  ⟨by decide,
   update_element_nontransactional (fun k => decide (k < 2)) _ _ _ "NEW" false
     (by decide) (by decide)⟩

/-- C9: successful construction from N content strings, 1 to 255 of them,
yields a block whose lines are numbered by construction order, whose
tracked row is the below-block sentinel N, and whose output contains
exactly N newline bytes. -/
theorem new_success_shape (contents : List String)
    (h1 : 1 ≤ contents.length) (h2 : contents.length ≤ 255) :
    ∃ b o, Block.new allOk (contents.map InteractiveLine.new) = NewOutcome.ok b o ∧
      b.interactive_lines.length = contents.length ∧
      WF b ∧
      b.cursor_position.row = contents.length ∧
      nlCount (emittedBytes o) = contents.length := by
  have hlen : (contents.map InteractiveLine.new).length = contents.length :=
    List.length_map _ _
  have hne : ¬ ((contents.map InteractiveLine.new).isEmpty = true) := by
    rw [List.isEmpty_iff]
    intro hc
    rw [hc, List.length_nil] at hlen
    omega
  simp only [Block.new]
  rw [if_neg (by rw [hlen]; omega), if_neg hne]
  simp only [prepare_all, write_inline_allOk]
  refine ⟨_, _, rfl, ?_, ?_, ?_, ?_⟩
  · simp [hlen]
  · intro i hi
    have hi' : i < contents.length := by
      simpa [hlen] using hi
    have hget : (contents.map InteractiveLine.new)[i]? =
        some ((contents.map InteractiveLine.new)[i]) :=
      List.getElem?_eq_getElem (by omega)
    simp [List.getElem?_map, List.getElem?_enum, hget,
      Nat.mod_eq_of_lt (show i < 256 by omega)]
  · simp [hlen, Nat.mod_eq_of_lt (show contents.length < 256 by omega)]
  · simp only [List.nil_append]
    rw [emittedBytes_single, nlCount_crWrap, nlCount_replicate]
    simp [List.enum_length, hlen]

/-- C9 witness at three concrete contents. -/
theorem new_success_shape_witness :
    ∃ b o, Block.new allOk ((["A", "B", "C"] : List String).map InteractiveLine.new) =
        NewOutcome.ok b o ∧
      b.interactive_lines.length = (["A", "B", "C"] : List String).length ∧
      WF b ∧
      b.cursor_position.row = (["A", "B", "C"] : List String).length ∧
      nlCount (emittedBytes o) = (["A", "B", "C"] : List String).length :=
  new_success_shape ["A", "B", "C"] (by decide) (by decide)

/-- C10: an update_element call whose reference's stored row is out of
bounds returns the element-not-found error with the block, its line
contents and tracked row, and the output stream all exactly unchanged:
the not-found path is atomic. -/
theorem update_element_notfound_atomic (ok : Nat → Bool) (b : Block) (o : Out)
    (elem : InteractiveLine) (content : String) (clear : Bool)
    (h : b.interactive_lines.length ≤ elem.relative_row) :
    update_element ok b o elem content clear =
      (b, o, some (Err.other ("element " ++ debugFmt elem ++ " not found"))) := by
  simp [update_element, List.getElem?_eq_none_iff.mpr h]

/-- C10 witness: a one-line block and a reference with stored row 5. -/
theorem update_element_notfound_atomic_witness :
    update_element allOk
        { interactive_lines := [{ content := "A", relative_row := 0 }],
          cursor_position := { row := 1, col := 0 } }
        { chunks := [], nCalls := 0 }
        { content := "B", relative_row := 5 } "NEW" true =
      ({ interactive_lines := [{ content := "A", relative_row := 0 }],
         cursor_position := { row := 1, col := 0 } },
       { chunks := [], nCalls := 0 },
       some (Err.other
         ("element " ++ debugFmt { content := "B", relative_row := 5 } ++ " not found"))) :=
  update_element_notfound_atomic allOk _ _ _ "NEW" true (by decide)

end Claims

end Interm
